import Mathlib

/-
Verification of the WorkoutAgent repository (workout_agent.py) against its
natural-language specification.

The deterministic parts (data models, BMR calculator, /bmr endpoint) are
embedded directly from the source.  Python floats are modelled as exact
rationals: every numeric literal appearing in the source and in the examples
(6.25, 1.2, 1.375, 1.55, 1.725, 1.9, the example profiles) is exactly
representable, and the float products involved were checked to coincide with
the rational values, so the rational model is observationally faithful here.
Python's round (banker's rounding, round-half-to-even) is modelled explicitly.

The generation orchestration (analyze_profile) delegates its retry loop to the
external pydantic_ai library, whose code is not part of the repository; that
loop is modelled from the spec (see the doc comments marked
"Modelled from the spec").  The schema validation predicate itself is taken
from the source's Pydantic Field declarations.
-/

namespace WorkoutAgent

/-- The closed ActivityLevel enumeration from workout_agent.py lines 31-36. -/
inductive ActivityLevel where
  | sedentary
  | lightly_active
  | moderately_active
  | very_active
  | extremely_active
deriving DecidableEq

/-- The string value of each enum member, as declared in the source. -/
def ActivityLevel.value : ActivityLevel → String
  | .sedentary => "sedentary"
  | .lightly_active => "lightly_active"
  | .moderately_active => "moderately_active"
  | .very_active => "very_active"
  | .extremely_active => "extremely_active"

/-- FitnessProfile from workout_agent.py lines 42-49 (field types only; the
Field bound constraints are captured by mkFitnessProfile below). -/
structure FitnessProfile where
  age : ℤ
  weight : ℚ
  height : ℚ
  gender : String
  activity_level : ActivityLevel
  fitness_goals : Option String
deriving DecidableEq

/-- Pydantic construction of a FitnessProfile: the Field declarations require
age in 13..120 (ge=13, le=120), weight strictly positive (gt=0) and height
strictly positive (gt=0); construction fails (ValidationError) otherwise. -/
def mkFitnessProfile (age : ℤ) (weight height : ℚ) (gender : String)
    (al : ActivityLevel) (goals : Option String) : Option FitnessProfile :=
  if 13 ≤ age ∧ age ≤ 120 ∧ 0 < weight ∧ 0 < height then
    some ⟨age, weight, height, gender, al, goals⟩
  else
    none

/-- Python str.lower restricted to ASCII, which covers the gender strings the
source compares (Char.toLower lowercases exactly the ASCII uppercase range). -/
def pyLower (s : String) : String :=
  String.mk (s.data.map Char.toLower)

/-- The Mifflin-St Jeor base from workout_agent.py lines 176-179: the male
branch is selected by a case-insensitive match of gender against "male". -/
def bmrBase (p : FitnessProfile) : ℚ :=
  if pyLower p.gender = "male" then
    10 * p.weight + 6.25 * p.height - 5 * (p.age : ℚ) + 5
  else
    10 * p.weight + 6.25 * p.height - 5 * (p.age : ℚ) - 161

/-- The activity_multipliers dictionary from workout_agent.py lines 182-188,
as an association list. -/
def activity_multipliers : List (ActivityLevel × ℚ) :=
  [(.sedentary, 1.2),
   (.lightly_active, 1.375),
   (.moderately_active, 1.55),
   (.very_active, 1.725),
   (.extremely_active, 1.9)]

/-- Association-list lookup, modelling Python dict subscripting, which raises
KeyError (here: none) when the key is absent. -/
def lookupMultiplier : List (ActivityLevel × ℚ) → ActivityLevel → Option ℚ
  | [], _ => none
  | (k, v) :: rest, l => if k = l then some v else lookupMultiplier rest l

/-- calculate_bmr from workout_agent.py lines 174-190: base times the looked-up
activity multiplier; none models the KeyError path of the dict lookup. -/
def calculate_bmr (p : FitnessProfile) : Option ℚ :=
  (lookupMultiplier activity_multipliers p.activity_level).map
    (fun m => bmrBase p * m)

/-- Python round to an integer: round half to even (banker's rounding). -/
def roundHalfEven (x : ℚ) : ℤ :=
  if x - ⌊x⌋ < 1 / 2 then ⌊x⌋
  else if 1 / 2 < x - ⌊x⌋ then ⌊x⌋ + 1
  else if ⌊x⌋ % 2 = 0 then ⌊x⌋ else ⌊x⌋ + 1

/-- Python round(x, 0): rounds to a whole number (returned as a float). -/
def pyRound0 (x : ℚ) : ℚ :=
  (roundHalfEven x : ℚ)

/-- Python round(x, 2): rounds to two decimal places. -/
def pyRound2 (x : ℚ) : ℚ :=
  (roundHalfEven (100 * x) : ℚ) / 100

/-- The JSON object returned by the /bmr endpoint. -/
structure BmrResponse where
  bmr : ℚ
  daily_calories : ℚ
  weight_loss_calories : ℚ
  weight_gain_calories : ℚ
  activity_level : String
deriving DecidableEq

/-- calculate_bmr_endpoint from workout_agent.py lines 251-272: computes the
BMR and returns it rounded to 2 decimals, plus daily / weight-loss /
weight-gain calories rounded to whole numbers; any exception (none) becomes
the HTTP 500 branch. -/
def calculate_bmr_endpoint (p : FitnessProfile) : Option BmrResponse :=
  (calculate_bmr p).map (fun bmr =>
    { bmr := pyRound2 bmr
      daily_calories := pyRound0 bmr
      weight_loss_calories := pyRound0 (bmr - 500)
      weight_gain_calories := pyRound0 (bmr + 500)
      activity_level := p.activity_level.value })

/-- The male example profile from the spec and the repository's test file. -/
def maleExample : FitnessProfile :=
  ⟨30, 70, 175, "male", .moderately_active, none⟩

/-- The female example profile from the spec and the repository's test file. -/
def femaleExample : FitnessProfile :=
  ⟨25, 60, 165, "female", .lightly_active, none⟩

/-- The Mifflin-St Jeor formula exactly as worded in the spec, written
independently of calculate_bmr for the refinement comparison. -/
def specBmr (p : FitnessProfile) : ℚ :=
  (if pyLower p.gender = "male" then
      10 * p.weight + 6.25 * p.height - 5 * (p.age : ℚ) + 5
    else
      10 * p.weight + 6.25 * p.height - 5 * (p.age : ℚ) - 161) *
  (match p.activity_level with
    | .sedentary => 1.2
    | .lightly_active => 1.375
    | .moderately_active => 1.55
    | .very_active => 1.725
    | .extremely_active => 1.9)

/-- Exercise from workout_agent.py lines 51-57; the Field bound constraints
(sets ge=1, reps ge=1, rest_time ge=0) are validExercise below. -/
structure Exercise where
  name : String
  sets : ℤ
  reps : ℤ
  rest_time : ℤ
  instructions : Option String
deriving DecidableEq

/-- The Field bound constraints Pydantic checks on an Exercise. -/
def validExercise (e : Exercise) : Bool :=
  decide (1 ≤ e.sets) && decide (1 ≤ e.reps) && decide (0 ≤ e.rest_time)

/-- Meal from workout_agent.py lines 59-67; the Field bound constraints
(calories ge=0, protein/carbs/fats ge=0) are validMeal below. -/
structure Meal where
  name : String
  calories : ℤ
  protein : ℚ
  carbs : ℚ
  fats : ℚ
  timing : String
  ingredients : Option (List String)
deriving DecidableEq

/-- The Field bound constraints Pydantic checks on a Meal. -/
def validMeal (m : Meal) : Bool :=
  decide (0 ≤ m.calories) && decide (0 ≤ m.protein) &&
    decide (0 ≤ m.carbs) && decide (0 ≤ m.fats)

/-- FitnessReportResult from workout_agent.py lines 69-75.  Its own Field
declarations impose no bound constraints: the lists and strings may be empty
and daily_calories may be any integer. -/
structure FitnessReportResult where
  workout_plan : List Exercise
  nutrition_plan : List Meal
  daily_calories : ℤ
  motivational_quote : String
  recommendations : List String
deriving DecidableEq

/-- Pydantic schema validation of a FitnessReportResult, exactly the bound
constraints declared in the source models: every exercise and every meal must
satisfy its Field bounds; nothing constrains emptiness of the lists, the
quote, the recommendations, or the sign of daily_calories. -/
def validReport (r : FitnessReportResult) : Bool :=
  r.workout_plan.all validExercise && r.nutrition_plan.all validMeal

/-- A raw generation output: either data parseable into the report shape, or
output that does not match the schema at all (missing fields, wrong types),
carrying a validation diagnostic. -/
inductive RawGenOutput where
  | structured (r : FitnessReportResult)
  | malformed (diag : String)
deriving DecidableEq

/-- Schema validation of a raw generation output: shape conformance plus the
Field bound constraints of the source models. -/
def validateRaw : RawGenOutput → Except String FitnessReportResult
  | .malformed d => .error d
  | .structured r =>
      if validReport r then .ok r else .error "report fields violate declared bounds"

/-- One backend response to a generation request: either a raw output, or a
transport-level failure (network, auth, rate limit, timeout). -/
inductive GenAttempt where
  | produce (out : RawGenOutput)
  | transportFail (msg : String)
deriving DecidableEq

/-- Outcome of the orchestrator, following the error taxonomy of the spec. -/
inductive OrchestratorResult where
  | report (r : FitnessReportResult)
  | validationError (lastDiag : String)
  | transportError (msg : String)
deriving DecidableEq

/-- Modelled from the spec: the generation/validation/retry loop of the
orchestrator.  This loop lives in the external pydantic_ai Agent (its code is
not part of the repository); per the spec it validates each backend output
against the Report schema, retries on validation failure up to the fixed
attempt budget, fails terminally with the last validation diagnostic on
exhaustion, and surfaces a transport failure immediately without retrying.
The backend is modelled as the list of responses it would give to successive
generation requests. -/
def orchestrate : List GenAttempt → Nat → String → OrchestratorResult
  | _, 0, lastDiag => .validationError lastDiag
  | [], _ + 1, _ => .transportError "no response from backend"
  | .transportFail m :: _, _ + 1, _ => .transportError m
  | .produce out :: rest, n + 1, _ =>
      match validateRaw out with
      | .ok r => .report r
      | .error d => orchestrate rest n d

/-- The retry budget: 3 attempts total, from result_retries=3 in
workout_agent.py line 93 read through the spec's wording (a fixed maximum of
3 attempts, terminal failure on the 3rd consecutive validation failure). -/
def max_attempts : Nat := 3

/-- Modelled from the spec: analyze_profile from workout_agent.py lines
154-172, runs the orchestration loop with the fixed attempt budget. -/
def analyze_profile (backend : List GenAttempt) : OrchestratorResult :=
  orchestrate backend max_attempts ""

/-- How many generation requests the orchestration loop issues against the
given backend: mirrors orchestrate attempt by attempt. -/
def attemptsUsed : List GenAttempt → Nat → Nat
  | _, 0 => 0
  | [], _ + 1 => 0
  | .transportFail _ :: _, _ + 1 => 1
  | .produce out :: rest, n + 1 =>
      match validateRaw out with
      | .ok _ => 1
      | .error _ => 1 + attemptsUsed rest n

/-- Outcome of the /analyze boundary: either the input profile was rejected
by Pydantic validation (HTTP 422, before any generation), or the orchestrator
ran. -/
inductive AnalyzeOutcome where
  | inputValidationError
  | orchestrated (res : OrchestratorResult)
deriving DecidableEq

/-- The /analyze boundary from workout_agent.py lines 234-249: FastAPI first
constructs the FitnessProfile from the request fields (rejecting out-of-bound
values before the handler body runs), then calls analyze_profile.  The second
component counts generation requests issued. -/
def analyze_fitness (age : ℤ) (weight height : ℚ) (gender : String)
    (al : ActivityLevel) (goals : Option String)
    (backend : List GenAttempt) : AnalyzeOutcome × Nat :=
  match mkFitnessProfile age weight height gender al goals with
  | none => (.inputValidationError, 0)
  | some _ => (.orchestrated (analyze_profile backend), attemptsUsed backend max_attempts)

/-- A schema-valid concrete report used as a witness input. -/
def goodReport : FitnessReportResult :=
  { workout_plan := [⟨"Squat", 3, 10, 60, none⟩]
    nutrition_plan := [⟨"Oatmeal", 400, 20, 50, 10, "breakfast", none⟩]
    daily_calories := 2500
    motivational_quote := "Keep going!"
    recommendations := ["Sleep eight hours"] }

/-- A report with empty plans, empty quote, empty recommendations and negative
daily_calories: it satisfies every Field constraint the source declares. -/
def emptyReport : FitnessReportResult :=
  { workout_plan := []
    nutrition_plan := []
    daily_calories := -1
    motivational_quote := ""
    recommendations := [] }

/-- A valid low-BMR profile: female, age 120, 30 kg, 140 cm, sedentary. -/
def lowProfile : FitnessProfile :=
  ⟨120, 30, 140, "female", .sedentary, none⟩

/-- Pointwise comparison of two character lists up to letter case. -/
def charsCaseEq : List Char → List Char → Bool
  | [], [] => true
  | c1 :: r1, c2 :: r2 => decide (c1.toLower = c2.toLower) && charsCaseEq r1 r2
  | _, _ => false

/-- Two strings differ only in letter case: same length and positionwise equal
up to lowercasing. -/
def differOnlyInCase (g1 g2 : String) : Bool :=
  charsCaseEq g1.data g2.data

section Lemmas

lemma roundHalfEven_lo (x : ℚ) (n : ℤ) (h1 : (n : ℚ) ≤ x) (h2 : x < n + 1 / 2) :
    roundHalfEven x = n := by
  have hn : ⌊x⌋ = n := Int.floor_eq_iff.mpr ⟨h1, by linarith⟩
  simp only [roundHalfEven, hn]
  rw [if_pos (by linarith)]

lemma roundHalfEven_hi (x : ℚ) (n : ℤ) (h1 : (n : ℚ) + 1 / 2 < x) (h2 : x < n + 1) :
    roundHalfEven x = n + 1 := by
  have hn : ⌊x⌋ = n := Int.floor_eq_iff.mpr ⟨by linarith, by linarith⟩
  simp only [roundHalfEven, hn]
  rw [if_neg (by linarith), if_pos (by linarith)]

lemma pyRound0_lo (x : ℚ) (n : ℤ) (h1 : (n : ℚ) ≤ x) (h2 : x < n + 1 / 2) :
    pyRound0 x = n := by
  simp only [pyRound0, roundHalfEven_lo x n h1 h2]

lemma pyRound0_hi (x : ℚ) (n : ℤ) (h1 : (n : ℚ) + 1 / 2 < x) (h2 : x < n + 1) :
    pyRound0 x = n + 1 := by
  simp only [pyRound0, roundHalfEven_hi x n h1 h2]
  push_cast
  ring

lemma pyRound2_lo (x : ℚ) (n : ℤ) (h1 : (n : ℚ) ≤ 100 * x) (h2 : 100 * x < n + 1 / 2) :
    pyRound2 x = n / 100 := by
  simp only [pyRound2, roundHalfEven_lo (100 * x) n h1 h2]

lemma pyRound2_hi (x : ℚ) (n : ℤ) (h1 : (n : ℚ) + 1 / 2 < 100 * x) (h2 : 100 * x < n + 1) :
    pyRound2 x = (n + 1) / 100 := by
  simp only [pyRound2, roundHalfEven_hi (100 * x) n h1 h2]
  push_cast
  ring

lemma bmr_male_value : calculate_bmr maleExample = some 2555.5625 := by
  have h : pyLower "male" = "male" := by decide
  simp [calculate_bmr, maleExample, bmrBase, h, activity_multipliers, lookupMultiplier]
  norm_num

lemma bmr_female_value : calculate_bmr femaleExample = some 1849.71875 := by
  have h : ¬(pyLower "female" = "male") := by decide
  simp [calculate_bmr, femaleExample, bmrBase, h, activity_multipliers, lookupMultiplier]
  norm_num

lemma bmr_low_value : calculate_bmr lowProfile = some 496.8 := by
  have h : ¬(pyLower "female" = "male") := by decide
  simp [calculate_bmr, lowProfile, bmrBase, h, activity_multipliers, lookupMultiplier]
  norm_num

lemma charsCaseEq_map : ∀ {l1 l2 : List Char}, charsCaseEq l1 l2 = true →
    l1.map Char.toLower = l2.map Char.toLower := by
  intro l1
  induction l1 with
  | nil =>
      intro l2 h
      cases l2 with
      | nil => rfl
      | cons c r => simp [charsCaseEq] at h
  | cons c1 r1 ih =>
      intro l2 h
      cases l2 with
      | nil => simp [charsCaseEq] at h
      | cons c2 r2 =>
          simp only [charsCaseEq, Bool.and_eq_true, decide_eq_true_eq] at h
          simp [List.map, h.1, ih h.2]

lemma differOnlyInCase_pyLower {g1 g2 : String} (h : differOnlyInCase g1 g2 = true) :
    pyLower g1 = pyLower g2 := by
  simp only [pyLower]
  rw [charsCaseEq_map h]

lemma validateRaw_ok {out : RawGenOutput} {r : FitnessReportResult}
    (h : validateRaw out = .ok r) : validReport r = true := by
  cases out with
  | malformed d => simp [validateRaw] at h
  | structured r' =>
      by_cases hv : validReport r' = true
      · rw [validateRaw, if_pos hv] at h
        injection h with h
        subst h
        exact hv
      · rw [validateRaw, if_neg hv] at h
        cases h

lemma orchestrate_zero : ∀ (l : List GenAttempt) (d : String),
    orchestrate l 0 d = .validationError d := by
  intro l d
  cases l with
  | nil => rfl
  | cons a rest => cases a <;> rfl

lemma orchestrate_error_step (out : RawGenOutput) (rest : List GenAttempt)
    (n : Nat) (d d' : String) (h : validateRaw out = .error d') :
    orchestrate (.produce out :: rest) (n + 1) d = orchestrate rest n d' := by
  rw [orchestrate, h]

lemma orchestrate_report_valid :
    ∀ (backend : List GenAttempt) (n : Nat) (d : String) (r : FitnessReportResult),
      orchestrate backend n d = .report r → validReport r = true := by
  intro backend
  induction backend with
  | nil =>
      intro n d r h
      cases n <;> simp [orchestrate] at h
  | cons a rest ih =>
      intro n d r h
      cases n with
      | zero => simp [orchestrate] at h
      | succ n =>
          cases a with
          | transportFail m => simp [orchestrate] at h
          | produce out =>
              rw [orchestrate] at h
              cases hv : validateRaw out with
              | ok r' =>
                  rw [hv] at h
                  simp only at h
                  injection h with h
                  subst h
                  exact validateRaw_ok hv
              | error d' =>
                  rw [hv] at h
                  exact ih n d' r h

end Lemmas

/-- Claim C5: calculate_bmr computes the Mifflin-St Jeor base (case-insensitive
male branch plus 5, otherwise minus 161) multiplied by the activity multiplier
(sedentary 1.2, lightly_active 1.375, moderately_active 1.55, very_active
1.725, extremely_active 1.9); for the male example profile (age 30, 70 kg,
175 cm, moderately active) it returns exactly 2555.5625. -/
theorem calculate_bmr_matches_spec_formula :
    (∀ p : FitnessProfile, calculate_bmr p = some (specBmr p))
    ∧ lookupMultiplier activity_multipliers .sedentary = some 1.2
    ∧ lookupMultiplier activity_multipliers .lightly_active = some 1.375
    ∧ lookupMultiplier activity_multipliers .moderately_active = some 1.55
    ∧ lookupMultiplier activity_multipliers .very_active = some 1.725
    ∧ lookupMultiplier activity_multipliers .extremely_active = some 1.9
    ∧ calculate_bmr maleExample = some 2555.5625 := by
  refine ⟨?_, rfl, rfl, rfl, rfl, rfl, bmr_male_value⟩
  intro p
  rcases p with ⟨age, w, ht, g, al, goals⟩
  cases al <;>
    simp [calculate_bmr, specBmr, bmrBase, activity_multipliers, lookupMultiplier]

/-- Claim C4: the /bmr endpoint for the male example profile returns bmr
2555.56, daily_calories 2556, weight_loss_calories 2056 and
weight_gain_calories 3056; calorie figures are rounded to whole numbers and
bmr to 2 decimals. -/
theorem bmr_endpoint_male_example :
    calculate_bmr_endpoint maleExample =
      some { bmr := 2555.56, daily_calories := 2556, weight_loss_calories := 2056,
             weight_gain_calories := 3056, activity_level := "moderately_active" } := by
  have e1 : pyRound2 (2555.5625 : ℚ) = 2555.56 := by
    rw [pyRound2_lo _ 255556 (by norm_num) (by norm_num)]
    norm_num
  have e2 : pyRound0 (2555.5625 : ℚ) = 2556 := by
    rw [pyRound0_hi _ 2555 (by norm_num) (by norm_num)]
    norm_num
  have e3 : pyRound0 ((2555.5625 : ℚ) - 500) = 2056 := by
    rw [pyRound0_hi _ 2055 (by norm_num) (by norm_num)]
    norm_num
  have e4 : pyRound0 ((2555.5625 : ℚ) + 500) = 3056 := by
    rw [pyRound0_hi _ 3055 (by norm_num) (by norm_num)]
    norm_num
  simp only [calculate_bmr_endpoint, bmr_male_value, Option.map_some', e1, e2, e3, e4]
  rfl

/-- Claim C6 counterexample: for the female example profile (age 25, 60 kg,
165 cm, lightly active) calculate_bmr returns 1849.71875, not the spec's
stated value 1849.72. -/
theorem bmr_female_example_not_spec_value :
    calculate_bmr femaleExample = some 1849.71875
    ∧ calculate_bmr femaleExample ≠ some 1849.72 := by
  refine ⟨bmr_female_value, ?_⟩
  rw [bmr_female_value]
  intro hc
  have h2 : (1849.71875 : ℚ) = 1849.72 := Option.some.inj hc
  norm_num at h2

/-- Claim C6 (amended): for the female example profile calculate_bmr returns
1345.25 times 1.375, which equals exactly 1849.71875; this equals the spec's
1849.72 only after rounding to 2 decimal places. -/
theorem bmr_female_example_value :
    calculate_bmr femaleExample = some (1345.25 * 1.375)
    ∧ (1345.25 * 1.375 : ℚ) = 1849.71875
    ∧ pyRound2 (1345.25 * 1.375) = 1849.72 := by
  have hv : (1345.25 * 1.375 : ℚ) = 1849.71875 := by norm_num
  refine ⟨?_, hv, ?_⟩
  · rw [bmr_female_value, hv]
  · rw [hv, pyRound2_hi _ 184971 (by norm_num) (by norm_num)]
    norm_num

/-- Claim C7: two profiles identical except that their gender strings differ
only in letter case yield equal calculate_bmr results. -/
theorem calculate_bmr_gender_case_insensitive
    (age : ℤ) (weight height : ℚ) (g1 g2 : String) (al : ActivityLevel)
    (goals : Option String) (h : differOnlyInCase g1 g2 = true) :
    calculate_bmr ⟨age, weight, height, g1, al, goals⟩ =
      calculate_bmr ⟨age, weight, height, g2, al, goals⟩ := by
  have hp := differOnlyInCase_pyLower h
  simp only [calculate_bmr, bmrBase, hp]

/-- Witness for C7 at the concrete gender strings "Male" and "mALE". -/
theorem calculate_bmr_gender_case_insensitive_witness :
    differOnlyInCase "Male" "mALE" = true
    ∧ calculate_bmr ⟨30, 70, 175, "Male", .moderately_active, none⟩ =
        calculate_bmr ⟨30, 70, 175, "mALE", .moderately_active, none⟩ :=
  ⟨by decide,
   calculate_bmr_gender_case_insensitive 30 70 175 "Male" "mALE" .moderately_active none
     (by decide)⟩

/-- Claim C9: the activity-multiplier table covers every ActivityLevel member,
so the lookup never fails and calculate_bmr is total on every profile. -/
theorem calculate_bmr_total :
    (∀ l : ActivityLevel, (lookupMultiplier activity_multipliers l).isSome = true)
    ∧ (∀ p : FitnessProfile, (calculate_bmr p).isSome = true) := by
  constructor
  · intro l
    cases l <;> rfl
  · intro p
    rcases p with ⟨age, w, ht, g, al, goals⟩
    cases al <;> rfl

/-- Claim C8: FitnessProfile construction succeeds exactly when the declared
numeric bounds hold (age in 13..120, weight positive, height positive); a
constructed profile satisfies all bounds; a rejected profile makes the
/analyze boundary fail with zero generation calls. -/
theorem profile_bounds_characterize_construction :
    (∀ (age : ℤ) (weight height : ℚ) (gender : String) (al : ActivityLevel)
        (goals : Option String),
        (mkFitnessProfile age weight height gender al goals).isSome = true
          ↔ (13 ≤ age ∧ age ≤ 120 ∧ 0 < weight ∧ 0 < height))
    ∧ (∀ (age : ℤ) (weight height : ℚ) (gender : String) (al : ActivityLevel)
        (goals : Option String) (p : FitnessProfile),
        mkFitnessProfile age weight height gender al goals = some p →
          13 ≤ p.age ∧ p.age ≤ 120 ∧ 0 < p.weight ∧ 0 < p.height)
    ∧ (∀ (age : ℤ) (weight height : ℚ) (gender : String) (al : ActivityLevel)
        (goals : Option String) (backend : List GenAttempt),
        mkFitnessProfile age weight height gender al goals = none →
          analyze_fitness age weight height gender al goals backend =
            (.inputValidationError, 0)) := by
  refine ⟨?_, ?_, ?_⟩
  · intro age w ht g al goals
    by_cases hc : 13 ≤ age ∧ age ≤ 120 ∧ 0 < w ∧ 0 < ht
    · rw [mkFitnessProfile, if_pos hc]
      simpa using hc
    · rw [mkFitnessProfile, if_neg hc]
      simpa using hc
  · intro age w ht g al goals p hp
    by_cases hc : 13 ≤ age ∧ age ≤ 120 ∧ 0 < w ∧ 0 < ht
    · rw [mkFitnessProfile, if_pos hc] at hp
      injection hp with hp
      subst hp
      exact hc
    · rw [mkFitnessProfile, if_neg hc] at hp
      cases hp
  · intro age w ht g al goals backend hn
    rw [analyze_fitness, hn]

/-- Witness for C8: a 12-year-old profile is rejected with zero generation
calls, and the male example profile's construction succeeds iff its bounds
hold. -/
theorem profile_bounds_characterize_construction_witness :
    analyze_fitness 12 70 175 "male" .sedentary none [] = (.inputValidationError, 0)
    ∧ ((mkFitnessProfile 30 70 175 "male" ActivityLevel.moderately_active none).isSome = true
        ↔ (13 ≤ (30 : ℤ) ∧ (30 : ℤ) ≤ 120 ∧ 0 < (70 : ℚ) ∧ 0 < (175 : ℚ))) :=
  ⟨profile_bounds_characterize_construction.2.2 12 70 175 "male" .sedentary none []
     (by norm_num [mkFitnessProfile]),
   profile_bounds_characterize_construction.1 30 70 175 "male" .moderately_active none⟩

/-- Claim C1 (amended): every Report the orchestrator returns passed schema
validation, meaning all fields are present and every exercise and meal
satisfies its declared Field bounds; schema-invalid generation results are
never returned.  The source schema does not require non-empty plans, a
non-empty quote, non-empty recommendations, or non-negative daily_calories. -/
theorem analyze_profile_reports_schema_valid (backend : List GenAttempt)
    (r : FitnessReportResult) (h : analyze_profile backend = .report r) :
    (∀ e ∈ r.workout_plan, 1 ≤ e.sets ∧ 1 ≤ e.reps ∧ 0 ≤ e.rest_time)
    ∧ (∀ m ∈ r.nutrition_plan,
        0 ≤ m.calories ∧ 0 ≤ m.protein ∧ 0 ≤ m.carbs ∧ 0 ≤ m.fats) := by
  have hv := orchestrate_report_valid backend max_attempts "" r h
  simp only [validReport, Bool.and_eq_true, List.all_eq_true, validExercise, validMeal,
    decide_eq_true_eq] at hv
  refine ⟨fun e he => ?_, fun m hm => ?_⟩
  · have h3 := hv.1 e he
    exact ⟨h3.1.1, h3.1.2, h3.2⟩
  · have h4 := hv.2 m hm
    exact ⟨h4.1.1.1, h4.1.1.2, h4.1.2, h4.2⟩

/-- Witness for C1 at a concrete schema-valid report. -/
theorem analyze_profile_reports_schema_valid_witness :
    analyze_profile [.produce (.structured goodReport)] = .report goodReport
    ∧ ((∀ e ∈ goodReport.workout_plan, 1 ≤ e.sets ∧ 1 ≤ e.reps ∧ 0 ≤ e.rest_time)
        ∧ (∀ m ∈ goodReport.nutrition_plan,
            0 ≤ m.calories ∧ 0 ≤ m.protein ∧ 0 ≤ m.carbs ∧ 0 ≤ m.fats)) :=
  ⟨by decide,
   analyze_profile_reports_schema_valid [.produce (.structured goodReport)] goodReport
     (by decide)⟩

/-- Claim C1 counterexample: a report with empty workout plan, empty nutrition
plan, empty quote, empty recommendations and negative daily_calories passes
the source's schema validation and is returned by the orchestrator on the
first attempt with no retry, falsifying the claimed non-emptiness and
non-negativity invariants. -/
theorem analyze_profile_returns_empty_report :
    analyze_profile [.produce (.structured emptyReport)] = .report emptyReport
    ∧ attemptsUsed [.produce (.structured emptyReport)] max_attempts = 1
    ∧ ¬(emptyReport.workout_plan ≠ [] ∧ emptyReport.nutrition_plan ≠ []
        ∧ emptyReport.motivational_quote ≠ "" ∧ emptyReport.recommendations ≠ []
        ∧ 0 ≤ emptyReport.daily_calories) := by
  refine ⟨by decide, by decide, ?_⟩
  intro hc
  exact hc.1 (by decide)

/-- Claim C2: three consecutive schema-invalid generation outputs exhaust the
retry budget; the orchestrator fails with the validation-error outcome
carrying the last diagnostic and returns no Report. -/
theorem analyze_profile_fails_after_three_invalid (o1 o2 o3 : RawGenOutput)
    (rest : List GenAttempt) (d1 d2 d3 : String)
    (h1 : validateRaw o1 = .error d1) (h2 : validateRaw o2 = .error d2)
    (h3 : validateRaw o3 = .error d3) :
    analyze_profile (.produce o1 :: .produce o2 :: .produce o3 :: rest) =
      .validationError d3
    ∧ ∀ r, OrchestratorResult.validationError d3 ≠ .report r := by
  constructor
  · rw [analyze_profile, max_attempts]
    rw [show (3 : Nat) = 2 + 1 from rfl, orchestrate_error_step _ _ _ _ _ h1]
    rw [show (2 : Nat) = 1 + 1 from rfl, orchestrate_error_step _ _ _ _ _ h2]
    rw [show (1 : Nat) = 0 + 1 from rfl, orchestrate_error_step _ _ _ _ _ h3]
    exact orchestrate_zero rest d3
  · intro r hc
    cases hc

/-- Witness for C2 at three concrete malformed outputs. -/
theorem analyze_profile_fails_after_three_invalid_witness :
    analyze_profile [.produce (.malformed "missing workout_plan"),
        .produce (.malformed "daily_calories not an integer"),
        .produce (.malformed "nutrition_plan not a list")] =
      .validationError "nutrition_plan not a list"
    ∧ ∀ r, OrchestratorResult.validationError "nutrition_plan not a list" ≠ .report r :=
  analyze_profile_fails_after_three_invalid
    (.malformed "missing workout_plan") (.malformed "daily_calories not an integer")
    (.malformed "nutrition_plan not a list") [] _ _ _ rfl rfl rfl

/-- Claim C3: a transport-level failure on the first generation attempt is
surfaced immediately as the transport-error outcome with exactly one backend
call issued (zero retries), and that outcome is distinct from a validation
failure and carries no Report. -/
theorem analyze_profile_transport_not_retried (m : String) (rest : List GenAttempt) :
    analyze_profile (.transportFail m :: rest) = .transportError m
    ∧ attemptsUsed (.transportFail m :: rest) max_attempts = 1
    ∧ (∀ d, OrchestratorResult.transportError m ≠ .validationError d)
    ∧ (∀ r, OrchestratorResult.transportError m ≠ .report r) := by
  refine ⟨rfl, rfl, ?_, ?_⟩ <;> · intro x hc; cases hc

/-- Claim C10: the /bmr endpoint does not clamp calories at zero: a valid
low-BMR profile (female, age 120, 30 kg, 140 cm, sedentary) yields a negative
weight_loss_calories; and before rounding, the weight-gain figure always
exceeds the weight-loss figure by exactly 1000. -/
theorem bmr_endpoint_unclamped :
    mkFitnessProfile 120 30 140 "female" .sedentary none = some lowProfile
    ∧ calculate_bmr_endpoint lowProfile =
        some { bmr := 496.8, daily_calories := 497, weight_loss_calories := -3,
               weight_gain_calories := 997, activity_level := "sedentary" }
    ∧ (-3 : ℚ) < 0
    ∧ (∀ (p : FitnessProfile) (b : ℚ), calculate_bmr p = some b →
        (b + 500) - (b - 500) = 1000) := by
  refine ⟨by norm_num [mkFitnessProfile, lowProfile], ?_, by norm_num, ?_⟩
  · have e1 : pyRound2 (496.8 : ℚ) = 496.8 := by
      rw [pyRound2_lo _ 49680 (by norm_num) (by norm_num)]
      norm_num
    have e2 : pyRound0 (496.8 : ℚ) = 497 := by
      rw [pyRound0_hi _ 496 (by norm_num) (by norm_num)]
      norm_num
    have e3 : pyRound0 ((496.8 : ℚ) - 500) = -3 := by
      rw [pyRound0_hi _ (-4) (by norm_num) (by norm_num)]
      norm_num
    have e4 : pyRound0 ((496.8 : ℚ) + 500) = 997 := by
      rw [pyRound0_hi _ 996 (by norm_num) (by norm_num)]
      norm_num
    simp only [calculate_bmr_endpoint, bmr_low_value, Option.map_some', e1, e2, e3, e4]
    rfl
  · intro p b hb
    ring

/-- Witness for C10's pre-rounding gap, at the male example profile. -/
theorem bmr_endpoint_unclamped_witness :
    ((2555.5625 : ℚ) + 500) - ((2555.5625 : ℚ) - 500) = 1000 :=
  bmr_endpoint_unclamped.2.2.2 maleExample 2555.5625 bmr_male_value

end WorkoutAgent
